import Mathlib

/-!
# Verification of the Lovi provisioning / captive-portal firmware

Shallow embedding of the provisioning core of the `lovi-hass` firmware:

* `lib/captiveportal` — the simple variant: `ConfigManager` (EEPROM-backed
  credential store), `CaptivePortal` (AP + DNS + form-based `/save`);
* `lib/lovi-captive-portal` — the full variant: orchestrator mode machine,
  WiFi callbacks, and the HTTP control-plane routes and handlers;
* `devices/presence_gen_one/main.cpp` and `devices/test_device/main.cpp` —
  the device entry points (startup credential check, blocking connect loop).

Bytes of C strings and EEPROM cells are modelled as `Nat`; C strings are
lists of non-zero bytes; the EEPROM is a total map `Nat → Nat`.  External
libraries (ArduinoJson, the ESP web server, the radio) are modelled at their
interface: a request carries a pre-parsed JSON body (the outcome of
`deserializeJson`), the web server dispatches on the registered
(path, method) route table with an onNotFound fallback, and radio state is
an explicit structure.
-/

namespace Lovi

/-! ## Byte-string primitives

`strncpy(dst, src, n)` semantics on lists: positions `0..n-1` of `dst`
receive `src` bytes while they last and `0` afterwards; positions from `n`
on keep the old contents.  `cStr` reads a fixed buffer back as a C string
(bytes up to the first NUL). -/

def strncpyList : List Nat → List Nat → Nat → List Nat
  | old, _, 0 => old
  | [], _, _ + 1 => []
  | _ :: olds, [], n + 1 => 0 :: strncpyList olds [] n
  | _ :: olds, c :: cs, n + 1 => c :: strncpyList olds cs n

/-- The value of a NUL-terminated string stored in a fixed buffer. -/
def cStr (buf : List Nat) : List Nat :=
  buf.takeWhile (fun b => b ≠ 0)

theorem strncpyList_length (old src : List Nat) (n : Nat) :
    (strncpyList old src n).length = old.length := by
  induction old generalizing src n with
  | nil => cases n <;> simp [strncpyList]
  | cons o olds ih =>
    cases n with
    | zero => simp [strncpyList]
    | succ m => cases src <;> simp [strncpyList, ih]

/-- When the source fits strictly below the copy bound, `strncpy` stores the
source followed by zero padding, and keeps the tail of the old buffer. -/
theorem strncpyList_short (old src : List Nat) (n : Nat)
    (hs : src.length ≤ n) (hn : n ≤ old.length) :
    strncpyList old src n =
      src ++ List.replicate (n - src.length) 0 ++ old.drop n := by
  induction old generalizing src n with
  | nil =>
    have : n = 0 := Nat.le_zero.mp hn
    subst this
    have : src = [] := List.eq_nil_of_length_eq_zero (Nat.le_zero.mp hs)
    subst this
    simp [strncpyList]
  | cons o olds ih =>
    cases n with
    | zero =>
      have : src = [] := List.eq_nil_of_length_eq_zero (Nat.le_zero.mp hs)
      subst this
      simp [strncpyList]
    | succ m =>
      cases src with
      | nil =>
        have := ih [] m (by simp) (Nat.le_of_succ_le_succ hn)
        simp only [strncpyList, this]
        simp [List.replicate_succ]
      | cons c cs =>
        have := ih cs m (Nat.le_of_succ_le_succ hs) (Nat.le_of_succ_le_succ hn)
        simp only [strncpyList, this]
        simp [Nat.succ_sub_succ]

/-- When the source reaches the copy bound, `strncpy` stores the first `n`
source bytes and keeps the tail of the old buffer. -/
theorem strncpyList_long (old src : List Nat) (n : Nat)
    (hs : n ≤ src.length) (hn : n ≤ old.length) :
    strncpyList old src n = src.take n ++ old.drop n := by
  induction old generalizing src n with
  | nil =>
    have : n = 0 := Nat.le_zero.mp hn
    subst this
    simp [strncpyList]
  | cons o olds ih =>
    cases n with
    | zero => simp [strncpyList]
    | succ m =>
      cases src with
      | nil => simp at hs
      | cons c cs =>
        have := ih cs m (Nat.le_of_succ_le_succ hs) (Nat.le_of_succ_le_succ hn)
        simp [strncpyList, this]

theorem cStr_append_zero (s rest : List Nat) (hs : ∀ b ∈ s, b ≠ 0) :
    cStr (s ++ 0 :: rest) = s := by
  induction s with
  | nil => simp [cStr]
  | cons c cs ih =>
    have hc : c ≠ 0 := hs c (by simp)
    have ihs : ∀ b ∈ cs, b ≠ 0 := fun b hb => hs b (by simp [hb])
    simp only [cStr, List.cons_append, List.takeWhile_cons]
    rw [if_pos (by simpa using hc)]
    simpa [cStr] using ih ihs

/-! ## `lib/captiveportal/ConfigManager` — EEPROM-backed credential store

`_ssid` is a `char[32]`, `_password` a `char[64]`.  `setSSID`/`setPassword`
are `strncpy` into the buffer with a forced NUL in the last cell.
`_saveToEEPROM` writes the two buffers byte-for-byte at offsets `0` and
`sizeof(_ssid) = 32`; `_loadFromEEPROM` reads them back. -/

/-- State of a `ConfigManager`: the two fixed-size buffers. -/
structure CMState where
  ssidBuf : List Nat
  pwBuf : List Nat
  deriving Repr, DecidableEq

/-- `ConfigManager::ConfigManager()`: both buffers start NUL-terminated
empty (remaining cells are unspecified in C; the constructor only writes
cell 0, so we keep a parameter for the junk tail). -/
def CMState.init : CMState :=
  { ssidBuf := List.replicate 32 0, pwBuf := List.replicate 64 0 }

/-- `ConfigManager::setSSID`: `strncpy(_ssid, ssid, sizeof(_ssid)-1)` then
`_ssid[sizeof(_ssid)-1] = 0`. -/
def CMState.setSSID (cm : CMState) (ssid : List Nat) : CMState :=
  { cm with ssidBuf := (strncpyList cm.ssidBuf ssid 31).set 31 0 }

/-- `ConfigManager::setPassword`: `strncpy(_password, password,
sizeof(_password)-1)` then `_password[sizeof(_password)-1] = 0`. -/
def CMState.setPassword (cm : CMState) (pw : List Nat) : CMState :=
  { cm with pwBuf := (strncpyList cm.pwBuf pw 63).set 63 0 }

/-- `ConfigManager::getSSID` as the C string the caller observes. -/
def CMState.getSSID (cm : CMState) : List Nat := cStr cm.ssidBuf

/-- `ConfigManager::getPassword` as the C string the caller observes. -/
def CMState.getPassword (cm : CMState) : List Nat := cStr cm.pwBuf

/-- `ConfigManager::isConfigured`: `strlen(_ssid) > 0`. -/
def CMState.isConfigured (cm : CMState) : Bool := cm.getSSID.length > 0

/-- One `EEPROM.write(addr, val)`. -/
def eepromWrite (e : Nat → Nat) (addr val : Nat) : Nat → Nat :=
  fun a => if a = addr then val else e a

/-- The write loop `for i: EEPROM.write(off + i, buf[i])`. -/
def writeBuf (e : Nat → Nat) (off : Nat) : List Nat → (Nat → Nat)
  | [] => e
  | b :: bs => writeBuf (eepromWrite e off b) (off + 1) bs

/-- `ConfigManager::_saveToEEPROM`: SSID buffer at offsets `0..31`,
password buffer at offsets `32..95`, then `EEPROM.commit()`. -/
def saveToEEPROM (cm : CMState) (e : Nat → Nat) : Nat → Nat :=
  writeBuf (writeBuf e 0 cm.ssidBuf) 32 cm.pwBuf

/-- `ConfigManager::_loadFromEEPROM`: reads the 32-byte SSID buffer and the
64-byte password buffer back from their fixed offsets. -/
def loadFromEEPROM (e : Nat → Nat) : CMState :=
  { ssidBuf := (List.range 32).map e
    pwBuf := (List.range 64).map fun i => e (32 + i) }

/-- `ConfigManager::clearConfig`: NUL the first cell of each buffer and
persist. -/
def CMState.clearConfig (cm : CMState) : CMState :=
  { cm with ssidBuf := cm.ssidBuf.set 0 0, pwBuf := cm.pwBuf.set 0 0 }

theorem writeBuf_eq (e : Nat → Nat) (off : Nat) (buf : List Nat) (a : Nat) :
    writeBuf e off buf a =
      if off ≤ a ∧ a < off + buf.length then buf.getD (a - off) 0 else e a := by
  induction buf generalizing e off with
  | nil =>
    simp only [writeBuf, List.length_nil, Nat.add_zero]
    rw [if_neg (by omega)]
  | cons b bs ih =>
    simp only [writeBuf, ih, List.length_cons]
    by_cases h1 : a = off
    · subst h1
      rw [if_neg (by omega), if_pos (by omega)]
      simp [eepromWrite]
    · by_cases h2 : off + 1 ≤ a ∧ a < off + 1 + bs.length
      · rw [if_pos h2, if_pos (by omega)]
        have : a - off = (a - (off + 1)) + 1 := by omega
        simp [this]
      · rw [if_neg h2, if_neg (by omega)]
        simp [eepromWrite, h1]

theorem CMState.setSSID_length (cm : CMState) (h : cm.ssidBuf.length = 32)
    (s : List Nat) : (cm.setSSID s).ssidBuf.length = 32 := by
  simp [CMState.setSSID, strncpyList_length, h]

theorem CMState.setPassword_length (cm : CMState) (h : cm.pwBuf.length = 64)
    (s : List Nat) : (cm.setPassword s).pwBuf.length = 64 := by
  simp [CMState.setPassword, strncpyList_length, h]

/-- Reading `n` consecutive cells back from a store into which an
`n`-byte buffer has just been written at offset `off` returns the buffer. -/
theorem readback_writeBuf (e : Nat → Nat) (off : Nat) (buf : List Nat) :
    (List.range buf.length).map (fun i => writeBuf e off buf (off + i)) = buf := by
  apply List.ext_getElem
  · simp
  · intro i h1 h2
    simp only [List.getElem_map, List.getElem_range]
    rw [writeBuf_eq]
    rw [if_pos ⟨Nat.le_add_right _ _, by simp at h1; omega⟩]
    simp only [Nat.add_sub_cancel_left]
    exact List.getD_eq_getElem buf 0 h2

theorem list_set_append_right {α : Type} (l1 l2 : List α) (n : Nat) (a : α)
    (h : l1.length ≤ n) : (l1 ++ l2).set n a = l1 ++ l2.set (n - l1.length) a := by
  induction l1 generalizing n with
  | nil => simp
  | cons x xs ih =>
    cases n with
    | zero => simp at h
    | succ m =>
      simp only [List.cons_append, List.set_cons_succ, List.length_cons,
        Nat.succ_sub_succ]
      rw [ih m (Nat.le_of_succ_le_succ h)]

/-- What the credential store observes after `strncpy` into a `cap`-byte
buffer with a forced NUL in the last cell: the source truncated to
`cap - 1` bytes. -/
theorem cStr_strncpy_set (old s : List Nat) (n : Nat)
    (hold : old.length = n + 1) (hnz : ∀ b ∈ s, b ≠ 0) :
    cStr ((strncpyList old s n).set n 0) = s.take n := by
  have hdrop : (old.drop n).length = 1 := by
    simp [List.length_drop, hold]
  obtain ⟨x, hx⟩ := List.length_eq_one.mp hdrop
  by_cases hle : s.length ≤ n
  · rw [strncpyList_short old s n hle (by omega)]
    rw [List.append_assoc,
      list_set_append_right s _ n 0 hle,
      list_set_append_right _ _ (n - s.length) 0 (by simp)]
    simp only [List.length_replicate, Nat.sub_self, hx, List.set]
    have hrep : List.replicate (n - s.length) 0 ++ [0]
        = 0 :: List.replicate (n - s.length) (0 : Nat) := by
      rw [← List.replicate_succ, ← List.replicate_succ']
    rw [← List.append_assoc, List.append_assoc, hrep, cStr_append_zero s _ hnz,
      List.take_of_length_le hle]
  · rw [strncpyList_long old s n (by omega) (by omega)]
    have htake : (s.take n).length = n := by
      simp [List.length_take]
      omega
    rw [list_set_append_right _ _ n 0 (by omega), htake, Nat.sub_self, hx,
      List.set]
    exact cStr_append_zero _ _ fun b hb => hnz b (List.take_subset n s hb)

/-- Saving and re-loading returns the exact buffer contents: the EEPROM
layout (SSID at `0..31`, password at `32..95`) is lossless. -/
theorem load_save (cm : CMState) (e : Nat → Nat)
    (h1 : cm.ssidBuf.length = 32) (h2 : cm.pwBuf.length = 64) :
    loadFromEEPROM (saveToEEPROM cm e) = cm := by
  cases cm with
  | mk sb pb =>
    simp only [CMState.ssidBuf] at h1
    simp only [CMState.pwBuf] at h2
    simp only [loadFromEEPROM, saveToEEPROM, CMState.mk.injEq]
    constructor
    · apply List.ext_getElem
      · simp [h1]
      · intro i hi1 hi2
        simp only [List.getElem_map, List.getElem_range]
        have hi : i < 32 := by simpa using hi1
        rw [writeBuf_eq, if_neg (by omega), writeBuf_eq,
          if_pos ⟨Nat.zero_le i, by omega⟩]
        simpa using List.getD_eq_getElem sb 0 hi2
    · apply List.ext_getElem
      · simp [h2]
      · intro i hi1 hi2
        simp only [List.getElem_map, List.getElem_range]
        have hi : i < 64 := by simpa using hi1
        rw [writeBuf_eq, if_pos ⟨by omega, by omega⟩]
        simpa using List.getD_eq_getElem pb 0 hi2

/-- Saving touches only EEPROM cells `0..95`. -/
theorem save_no_overflow (cm : CMState) (e : Nat → Nat)
    (h1 : cm.ssidBuf.length = 32) (h2 : cm.pwBuf.length = 64)
    (a : Nat) (ha : 96 ≤ a) : saveToEEPROM cm e a = e a := by
  simp only [saveToEEPROM]
  rw [writeBuf_eq, if_neg (by omega), writeBuf_eq, if_neg (by omega)]

/-! ## `lib/lovi-captive-portal` — orchestrator mode machine

State touched by `CaptivePortal`: the `configMode` flag, whether the DNS
redirector is running (`dnsHandler.begin` / `dnsHandler.stop`), the radio
mode, and counters for the externally observable calls (DNS stop, softAP
teardown, `Device` lifecycle notifications).  The counters model the calls
made on the collaborators so that "exactly once" statements can be read off
the state. -/

inductive WifiMode
  | off
  | sta
  | ap
  | apSta
  deriving Repr, DecidableEq

structure OState where
  configMode : Bool
  dnsRunning : Bool
  wifiMode : WifiMode
  dnsStopCount : Nat
  apStopCount : Nat
  enterNotifyCount : Nat
  exitNotifyCount : Nat
  connNotifyCount : Nat
  disconnNotifyCount : Nat
  deriving Repr, DecidableEq

/-- State right after `begin()` wired the callbacks, before any WiFi event:
normal mode, DNS redirector not running, station radio. -/
def OState.start : OState :=
  { configMode := false, dnsRunning := false, wifiMode := WifiMode.sta,
    dnsStopCount := 0, apStopCount := 0, enterNotifyCount := 0
    exitNotifyCount := 0, connNotifyCount := 0, disconnNotifyCount := 0 }

/-- `CaptivePortal::startAccessPoint`: `WiFi.mode(WIFI_AP_STA)`, softAP up,
`dnsHandler.begin(apIP, 53)`. -/
def startAccessPoint (s : OState) : OState :=
  { s with wifiMode := WifiMode.apSta, dnsRunning := true }

/-- `CaptivePortal::enterConfigMode` (and the body of `onEnterAPMode`):
set the mode flag, bring the access point and DNS redirector up, then
`device->onEnterConfigMode()`. -/
def enterConfigMode (s : OState) : OState :=
  let s1 := startAccessPoint { s with configMode := true }
  { s1 with enterNotifyCount := s1.enterNotifyCount + 1 }

/-- `CaptivePortal::onWiFiConnected`: when `configMode` is set, clear it,
`dnsHandler.stop()`, `WiFi.softAPdisconnect(true)` + `WiFi.mode(WIFI_STA)`;
then (device attached) start mDNS and call `device->onWiFiConnected()` and
`device->onExitConfigMode()` — the two device notifications are outside the
`if (configMode)` guard and run on every delivery of the event. -/
def onWiFiConnected (s : OState) : OState :=
  let s1 :=
    if s.configMode then
      { s with configMode := false, dnsRunning := false,
               dnsStopCount := s.dnsStopCount + 1,
               wifiMode := WifiMode.sta,
               apStopCount := s.apStopCount + 1 }
    else s
  { s1 with connNotifyCount := s1.connNotifyCount + 1,
            exitNotifyCount := s1.exitNotifyCount + 1 }

/-- `CaptivePortal::onWiFiDisconnected`: only notifies the device. -/
def onWiFiDisconnected (s : OState) : OState :=
  { s with disconnNotifyCount := s.disconnNotifyCount + 1 }

inductive OEvent
  | enterAP
  | connected
  | disconnected
  deriving Repr, DecidableEq

def ostep (s : OState) : OEvent → OState
  | OEvent.enterAP => enterConfigMode s
  | OEvent.connected => onWiFiConnected s
  | OEvent.disconnected => onWiFiDisconnected s

/-- States reachable from startup under the WiFiManager callback events
(`onEnterAPMode` after the no-credentials check or connect timeout,
`onConnected`, `onDisconnected`). -/
inductive OReachable : OState → Prop
  | start : OReachable OState.start
  | step : ∀ s ev, OReachable s → OReachable (ostep s ev)

/-- Core invariant: in every reachable state the DNS redirector is running
exactly when the portal is in CONFIG mode. -/
theorem dnsRunning_eq_configMode (s : OState) (h : OReachable s) :
    s.dnsRunning = s.configMode := by
  induction h with
  | start => rfl
  | step s ev _ ih =>
    cases ev with
    | enterAP => simp [ostep, enterConfigMode, startAccessPoint]
    | connected =>
      by_cases hc : s.configMode
      · simp [ostep, onWiFiConnected, hc]
      · simp [ostep, onWiFiConnected, hc, ih]
    | disconnected => simp [ostep, onWiFiDisconnected, ih]

/-! ## Device entry points

`devices/presence_gen_one/main.cpp` and `devices/test_device/main.cpp`:
startup reads the stored SSID; when it is empty the portal goes straight to
CONFIG mode (access point + DNS) and no station join is ever issued;
otherwise `presence_gen_one` runs the blocking `connectToWiFi` loop.
The link signal is modelled as a function from poll index (1-second cadence)
to the value of `WiFi.status() == WL_CONNECTED` at that poll. -/

inductive PAct
  | enterConfigAct
  | beginPortalAct
  | wifiBeginAct
  | deviceBeginAct
  | startMDNSAct
  | startAPIServerAct
  | printFailedAct
  deriving Repr, DecidableEq

/-- `#define WIFI_TIMEOUT 30` in `presence_gen_one/main.cpp`. -/
def WIFI_TIMEOUT : Nat := 30

/-- The polling loop of `connectToWiFi`:
`while (WiFi.status() != WL_CONNECTED && timeout < WIFI_TIMEOUT) { delay(1000); timeout++; }`.
`t` is the current value of `timeout`, `fuel` the remaining iterations
(`WIFI_TIMEOUT - t`); returns the value of `timeout` at loop exit. -/
def wifiWait (link : Nat → Bool) : Nat → Nat → Nat
  | t, 0 => t
  | t, fuel + 1 => if link t then t else wifiWait link (t + 1) fuel

/-- `connectToWiFi` of `presence_gen_one/main.cpp`: `WiFi.begin(ssid, pw)`,
the polling loop, then — depending on the final status check — either the
connected actions (`device.begin()`, `device.startMDNS(80)`,
`device.startAPIServer(80)`) or only the failure log. -/
def connectToWiFi (link : Nat → Bool) : List PAct :=
  let t := wifiWait link 0 WIFI_TIMEOUT
  PAct.wifiBeginAct ::
    (if link t then
      [PAct.deviceBeginAct, PAct.startMDNSAct, PAct.startAPIServerAct]
    else
      [PAct.printFailedAct])

structure SetupResult where
  portalConfigMode : Bool
  dnsStarted : Bool
  acts : List PAct
  deriving Repr

/-- The `_configManager` member of the simple-variant portal right at the
top of `setup()`: the `CaptivePortal(uint8_t ledPin)` constructor
initialises it to `nullptr`, and neither `begin()` nor `enterConfigMode()`
(the two places that allocate it) has run yet when `setup()` calls
`portal.getConfigManager()`. -/
def portalConfigManagerAtSetup : Option CMState := none

/-- Outcome of a device `setup()`: either the startup crash from
dereferencing the null `_configManager`, or a completed setup. -/
inductive SetupOutcome
  | crash
  | ok : SetupResult → SetupOutcome
  deriving Repr

/-- `setup()` of `presence_gen_one/main.cpp`:
`ConfigManager* configManager = portal.getConfigManager();` yields the
null `_configManager` (the portal was constructed with
`CaptivePortal(LED_PIN)` and `portal.begin()` has not run), so
`configManager->loadConfig()` dereferences a null pointer and the startup
crashes before the credential check.  The `ok` branch embeds the code that
would run on a valid pointer: the `strlen(ssid) == 0` check, then either
`portal.enterConfigMode()` or `portal.begin()` + `connectToWiFi`. -/
def presenceSetup (e : Nat → Nat) (link : Nat → Bool) : SetupOutcome :=
  match portalConfigManagerAtSetup with
  | none => SetupOutcome.crash
  | some _ =>
    let cm := loadFromEEPROM e
    if cm.getSSID.length = 0 then
      SetupOutcome.ok
        { portalConfigMode := true, dnsStarted := true,
          acts := [PAct.enterConfigAct] }
    else
      SetupOutcome.ok
        { portalConfigMode := false, dnsStarted := false,
          acts := PAct.beginPortalAct :: connectToWiFi link }

/-- `setup()` of `test_device/main.cpp`: builds a local stack
`ConfigManager` (no pointer involved, unlike `presence_gen_one`), loads it,
then runs the same `strlen(ssid) == 0` check; the non-empty branch only
calls `portal.begin()`. -/
def testSetup (e : Nat → Nat) : SetupResult :=
  let cm := loadFromEEPROM e
  if cm.getSSID.length = 0 then
    { portalConfigMode := true, dnsStarted := true,
      acts := [PAct.enterConfigAct] }
  else
    { portalConfigMode := false, dnsStarted := false,
      acts := [PAct.beginPortalAct] }

/-- Modelled from the spec: `WiFiManager::connect` of the
`lovi-captive-portal` variant (WiFiManager.cpp is not in the source tree).
Spec §4.1: "`connect() -> bool` attempts to start an asynchronous join using
stored credentials; returns false immediately (no connection attempted) if
no SSID is stored". -/
def wifiConnect (storedSSID : List Nat) : Bool :=
  !storedSSID.isEmpty

/-- The provisioning decision inside `CaptivePortal::begin()` of the
`lovi-captive-portal` variant: `connectInitiated = wifiManager.connect();
if (!connectInitiated) enterConfigMode();`.  Returns the resulting
orchestrator state and whether a station join was started. -/
def loviBegin (storedSSID : List Nat) : OState × Bool :=
  let connectInitiated := wifiConnect storedSSID
  if connectInitiated then (OState.start, true)
  else (enterConfigMode OState.start, false)

/-- If no link is seen at polls `t, t+1, …, t+fuel`, the loop runs its full
budget. -/
theorem wifiWait_no_link (link : Nat → Bool) (fuel t : Nat)
    (h : ∀ u, u ≤ t + fuel → link u = false) :
    wifiWait link t fuel = t + fuel := by
  induction fuel generalizing t with
  | zero => simp [wifiWait]
  | succ f ih =>
    have h0 : link t = false := h t (Nat.le_add_right _ _)
    simp only [wifiWait, h0, Bool.false_eq_true, if_false]
    rw [ih (t + 1) (fun u hu => h u (by omega))]
    omega

/-! ## Control-plane HTTP server (`lovi-captive-portal`)

The web server (external library) dispatches a request on the registered
(path, method) route table built in `setupWebServerRoutes`; an unmatched
request falls to the `onNotFound` handler.  JSON documents are association
lists; a request body carries the outcome of `deserializeJson` (an empty or
malformed body yields the error case).  `JVal.jraw` stands for a value the
external device adapter or radio library serialises (nested arrays, runtime
counters); no claim depends on its contents. -/

inductive Method
  | get
  | post
  deriving Repr, DecidableEq

inductive JVal
  | jb : Bool → JVal
  | js : String → JVal
  | ji : Int → JVal
  | jraw : String → JVal
  deriving Repr, DecidableEq

abbrev JObj := List (String × JVal)

/-- `doc[key] = v` on an ArduinoJson document: replace the existing member
or append a new one. -/
def jset : JObj → String → JVal → JObj
  | [], k, v => [(k, v)]
  | (k', v') :: rest, k, v =>
    if k' = k then (k, v) :: rest else (k', v') :: jset rest k v

/-- `doc.containsKey` / `doc[key]` read access. -/
def jget : JObj → String → Option JVal
  | [], _ => none
  | (k', v) :: rest, k => if k' = k then some v else jget rest k

/-- `as<bool>()` on a JSON value. -/
def JVal.asBool : JVal → Bool
  | JVal.jb b => b
  | JVal.ji n => n ≠ 0
  | _ => false

/-- Outcome of `deserializeJson(doc, webServer.arg("plain"))`: a parse
error (also for an absent/empty body) or the parsed object. -/
inductive JBody
  | invalid : String → JBody
  | obj : JObj → JBody
  deriving Repr, DecidableEq

structure Request where
  method : Method
  path : String
  body : JBody
  hasHealthArg : Bool
  deriving Repr, DecidableEq

structure WifiCtx where
  mode : WifiMode
  statusConnected : Bool
  localIP : String
  softAPIP : String
  ssid : String
  rssi : Int
  channel : Int
  macAddress : String
  deriving Repr, DecidableEq

/-- The server-visible state of the full-variant portal: radio context, the
orchestrator mode flag, and the external collaborators (device adapter,
LED controller) with the payloads they produce. -/
structure PortalCtx where
  wifi : WifiCtx
  configMode : Bool
  devicePresent : Bool
  hasLed : Bool
  apSSID : String
  deviceName : String
  deviceVersion : String
  deviceID : String
  deviceModel : String
  deviceType : String
  devPresence : JObj
  devStatus : JObj
  devData : JObj
  devSettings : JObj
  devUpdateSettingsOK : Bool

inductive RBody
  | jsonB : JObj → RBody
  | htmlPage : RBody
  | textPlain : String → RBody
  | emptyB : RBody
  deriving Repr, DecidableEq

structure Response where
  code : Nat
  contentType : String
  location : Option String
  body : RBody
  deriving Repr, DecidableEq

def jsonResponse (code : Nat) (o : JObj) : Response :=
  { code := code, contentType := "application/json", location := none,
    body := RBody.jsonB o }

/-- `CaptivePortal::getCaptivePortalUrl`: the AP address while
`WiFi.getMode() & WIFI_AP` is set, the station address otherwise. -/
def getCaptivePortalUrl (w : WifiCtx) : String :=
  "http://" ++
    (if w.mode = WifiMode.ap ∨ w.mode = WifiMode.apSta then w.softAPIP
     else w.localIP) ++ "/"

/-- Shared body of the five captive-portal probe handlers
(`handleGenerate204`, `handleHotspotDetect`, `handleNCSI`,
`handleConnectTest`, `handleRedirect`): an unconditional 302 to the portal
URL.  None of them consults `configMode`. -/
def handleCaptiveProbe (c : PortalCtx) : Response :=
  { code := 302, contentType := "text/plain",
    location := some (getCaptivePortalUrl c.wifi),
    body := RBody.textPlain "" }

def handleFavicon : Response :=
  { code := 204, contentType := "image/x-icon", location := none,
    body := RBody.textPlain "" }

def handleRoot : Response :=
  { code := 200, contentType := "text/html", location := none,
    body := RBody.htmlPage }

def handleConnected (c : PortalCtx) : Response :=
  let conn := c.wifi.statusConnected
  jsonResponse 200
    [("connected", JVal.jb conn),
     ("ip", JVal.js (if conn then c.wifi.localIP else "0.0.0.0")),
     ("ssid", JVal.js (if conn then c.wifi.ssid else "")),
     ("rssi", if conn then JVal.ji c.wifi.rssi else JVal.ji 0)]

def handlePresence (c : PortalCtx) : Response :=
  jsonResponse 200
    (if c.devicePresent then c.devPresence
     else [("presence", JVal.jb false), ("motion", JVal.jb false),
           ("distance", JVal.jraw "0.0f")])

def handleStatus (c : PortalCtx) : Response :=
  jsonResponse 200
    (if c.devicePresent then c.devStatus
     else [("uptime", JVal.jraw "millis/1000"),
           ("heap", JVal.jraw "freeHeap"), ("status", JVal.js "healthy")])

def handleData (c : PortalCtx) : Response :=
  jsonResponse 200
    (if c.devicePresent then c.devData else [("raw", JVal.js "No device")])

def handleDevice (c : PortalCtx) : Response :=
  jsonResponse 200
    [("name", JVal.js (if c.devicePresent then c.deviceName else "Unknown")),
     ("version", JVal.js (if c.devicePresent then c.deviceVersion else "1.0.0")),
     ("id", JVal.js (if c.devicePresent then c.deviceID else "unknown")),
     ("model", JVal.js (if c.devicePresent then c.deviceModel else "Unknown")),
     ("device_type", JVal.js (if c.devicePresent then c.deviceType else "unknown")),
     ("manufacturer", JVal.js "Lovi"),
     ("mac_address", JVal.js c.wifi.macAddress)]

def handleScan : Response :=
  jsonResponse 200 [("networks", JVal.jraw "scan-results")]

def wifiModeName : WifiMode → String
  | WifiMode.apSta => "AP_STA"
  | WifiMode.sta => "STA"
  | WifiMode.ap => "AP"
  | WifiMode.off => "OFF"

def handleNetwork (c : PortalCtx) : Response :=
  jsonResponse 200
    [("ap_ip", JVal.js c.wifi.softAPIP),
     ("sta_ip", JVal.js c.wifi.localIP),
     ("mode", JVal.js (wifiModeName c.wifi.mode)),
     ("ap_ssid", JVal.js c.apSSID),
     ("connected", JVal.jb c.wifi.statusConnected),
     ("ssid", JVal.js c.wifi.ssid),
     ("rssi", JVal.ji c.wifi.rssi),
     ("channel", JVal.ji c.wifi.channel)]

/-- `CaptivePortal::handleSettings`: GET returns the device settings (or an
error member without a device); POST parses the body — a parse error is
answered 400 with an error member, otherwise `success`/`message` members
report whether `device->updateSettings` applied anything. -/
def handleSettings (c : PortalCtx) (req : Request) : Response :=
  match req.method with
  | Method.get =>
    jsonResponse 200
      (if c.devicePresent then c.devSettings else [("error", JVal.js "No device")])
  | Method.post =>
    match req.body with
    | JBody.invalid msg =>
      jsonResponse 400 [("error", JVal.js "Invalid JSON"), ("message", JVal.js msg)]
    | JBody.obj o =>
      if c.devicePresent && c.devUpdateSettingsOK then
        jsonResponse 200
          (jset (jset o "success" (JVal.jb true)) "message" (JVal.js "Settings updated"))
      else
        jsonResponse 200
          (jset (jset o "success" (JVal.jb false)) "message" (JVal.js "No settings updated"))

/-- `CaptivePortal::handleLED`: rejects non-POST with 405, a parse error
with 400, a missing `state` member with 400; otherwise drives the LED
controller and reports the new state. -/
def handleLED (c : PortalCtx) (req : Request) : Response :=
  if req.method ≠ Method.post then
    jsonResponse 405
      [("error", JVal.js "Use POST method"),
       ("message", JVal.js "Send JSON with state true/false")]
  else
    match req.body with
    | JBody.invalid msg =>
      jsonResponse 400 [("error", JVal.js "Invalid JSON"), ("message", JVal.js msg)]
    | JBody.obj o =>
      match jget o "state" with
      | some v =>
        let ledState := v.asBool
        if c.hasLed then
          jsonResponse 200
            [("success", JVal.jb true), ("led", JVal.jb ledState),
             ("message", JVal.js (if ledState then "LED turned on" else "LED turned off"))]
        else
          jsonResponse 500
            [("error", JVal.js "No LED controller")]
      | none =>
        jsonResponse 400
          [("error", JVal.js "Missing state parameter"),
           ("message", JVal.js "Send JSON with state true/false")]

/-- The acknowledgment `handleRestart` sends before `delay(1000)` and
`ESP.restart()`. -/
def restartAck : Response :=
  jsonResponse 200
    [("message", JVal.js "Restarting device..."), ("success", JVal.jb true)]

/-- The acknowledgment `handleReset` sends before `delay(1000)`,
`configManager.resetConfig()` and `ESP.restart()`. -/
def resetAck : Response :=
  jsonResponse 200
    [("message", JVal.js "Resetting to factory defaults..."), ("success", JVal.jb true)]

inductive HAct
  | sendResp : Nat → HAct
  | delayMs : Nat → HAct
  | resetConfigAct
  | restartDevice
  deriving Repr, DecidableEq

/-- Side effects of `CaptivePortal::handleRestart`, in statement order. -/
def handleRestartTrace : List HAct :=
  [HAct.sendResp 200, HAct.delayMs 1000, HAct.restartDevice]

/-- Side effects of `CaptivePortal::handleReset`, in statement order. -/
def handleResetTrace : List HAct :=
  [HAct.sendResp 200, HAct.delayMs 1000, HAct.resetConfigAct, HAct.restartDevice]

def strStarts (pre s : String) : Bool :=
  pre.data.isPrefixOf s.data

/-- `CaptivePortal::handleNotFound`: API-looking paths get a structured 404
JSON body, every other unmatched path gets the portal HTML page. -/
def handleNotFound (req : Request) : Response :=
  if strStarts "/api/" req.path || strStarts "/connected" req.path ||
     strStarts "/presence" req.path || strStarts "/status" req.path ||
     strStarts "/data" req.path || strStarts "/settings" req.path ||
     strStarts "/restart" req.path || strStarts "/reset" req.path then
    jsonResponse 404 [("error", JVal.js "Not found")]
  else
    { code := 200, contentType := "text/html", location := none,
      body := RBody.htmlPage }

/-- The route table of `setupWebServerRoutes`, in registration order. -/
def routes : List (String × Method × (PortalCtx → Request → Response)) :=
  [("/generate_204", Method.get, fun c _ => handleCaptiveProbe c),
   ("/generate204", Method.get, fun c _ => handleCaptiveProbe c),
   ("/hotspot-detect.html", Method.get, fun c _ => handleCaptiveProbe c),
   ("/ncsi.txt", Method.get, fun c _ => handleCaptiveProbe c),
   ("/connecttest.txt", Method.get, fun c _ => handleCaptiveProbe c),
   ("/redirect", Method.get, fun c _ => handleCaptiveProbe c),
   ("/favicon.ico", Method.get, fun _ _ => handleFavicon),
   ("/", Method.get, fun _ _ => handleRoot),
   ("/connected", Method.get, fun c _ => handleConnected c),
   ("/presence", Method.get, fun c _ => handlePresence c),
   ("/status", Method.get, fun c _ => handleStatus c),
   ("/data", Method.get, fun c _ => handleData c),
   ("/device", Method.get, fun c _ => handleDevice c),
   ("/scan", Method.get, fun _ _ => handleScan),
   ("/network", Method.get, fun c _ => handleNetwork c),
   ("/settings", Method.get, handleSettings),
   ("/settings", Method.post, handleSettings),
   ("/restart", Method.post, fun _ _ => restartAck),
   ("/reset", Method.post, fun _ _ => resetAck),
   ("/led", Method.post, handleLED),
   ("/api/connected", Method.get, fun c _ => handleConnected c),
   ("/api/presence", Method.get, fun c _ => handlePresence c),
   ("/api/status", Method.get, fun c _ => handleStatus c),
   ("/api/data", Method.get, fun c _ => handleData c),
   ("/api/device", Method.get, fun c _ => handleDevice c),
   ("/api/scan", Method.get, fun _ _ => handleScan),
   ("/api/network", Method.get, fun c _ => handleNetwork c),
   ("/api/settings", Method.get, handleSettings),
   ("/api/settings", Method.post, handleSettings),
   ("/api/restart", Method.post, fun _ _ => restartAck),
   ("/api/reset", Method.post, fun _ _ => resetAck),
   ("/api/led", Method.post, handleLED)]

/-- Web-server dispatch: the first registered route whose path and method
both match handles the request; otherwise the `onNotFound` handler runs. -/
def serve (c : PortalCtx) (req : Request) : Response :=
  match routes.find? (fun r => r.1 = req.path && r.2.1 = req.method) with
  | some r => r.2.2 c req
  | none => handleNotFound req

def Response.jsonFields : Response → JObj
  | { body := RBody.jsonB o, .. } => o
  | _ => []

theorem jget_jset_self (o : JObj) (k : String) (v : JVal) :
    jget (jset o k v) k = some v := by
  induction o with
  | nil => simp [jset, jget]
  | cons kv rest ih =>
    by_cases h : kv.1 = k
    · simp [jset, jget, h]
    · simp [jset, jget, h, ih]

theorem jget_jset_ne (o : JObj) (k k' : String) (v : JVal) (h : k' ≠ k) :
    jget (jset o k' v) k = jget o k := by
  induction o with
  | nil => simp [jset, jget, h]
  | cons kv rest ih =>
    by_cases h2 : kv.1 = k'
    · simp [jset, jget, h2, h]
    · simp only [jset, h2, if_false]
      by_cases h3 : kv.1 = k
      · simp [jget, h3]
      · simp [jget, h3, ih]

/-- A fixed portal context in NORMAL mode (station only, connected,
`configMode = false`), used as a concrete probe input. -/
def ctxNormalSta : PortalCtx :=
  { wifi := { mode := WifiMode.sta, statusConnected := true
              localIP := "192.168.1.50", softAPIP := "192.168.4.1"
              ssid := "home", rssi := -40, channel := 6, macAddress := "AA:BB" }
    configMode := false, devicePresent := true, hasLed := true
    apSSID := "Lovi Device", deviceName := "Lovi-Test"
    deviceVersion := "1.0.0", deviceID := "dev-1", deviceModel := "M1"
    deviceType := "presence", devPresence := [], devStatus := [], devData := []
    devSettings := [], devUpdateSettingsOK := false }

/-- A fixed portal context with no device adapter attached. -/
def ctxNoDevice : PortalCtx :=
  { ctxNormalSta with devicePresent := false }

/-! ## `lib/captiveportal/CaptivePortal::_handleSave` (simple variant) -/

structure SaveOutcome where
  cm : CMState
  eeprom : Nat → Nat
  code : Nat
  restarted : Bool

/-- `CaptivePortal::_handleSave`: with both `ssid` and `password` form
arguments, store them (`setSSID`/`setPassword` truncate into the fixed
buffers), persist via `saveConfig`, answer 200 and restart; otherwise
answer 400 and touch nothing. -/
def handleSave (cm : CMState) (e : Nat → Nat)
    (ssidArg pwArg : Option (List Nat)) : SaveOutcome :=
  match ssidArg, pwArg with
  | some s, some p =>
    let cm1 := (cm.setSSID s).setPassword p
    { cm := cm1, eeprom := saveToEEPROM cm1 e, code := 200, restarted := true }
  | _, _ => { cm := cm, eeprom := e, code := 400, restarted := false }

/-! ## Claims -/

/-- C1: the claim (empty stored SSID at startup → CONFIG mode, no station
attempt) is the spec's stated intent and holds for `test_device`'s
`setup()` and for the full-variant `begin()` — but `presence_gen_one`'s
`setup()` cannot exhibit it: `portal.getConfigManager()` returns the null
`_configManager` (the constructor sets it to `nullptr` and `begin()` has
not run), so `configManager->loadConfig()` crashes the startup before the
credential check for every credential state, empty SSID included.  The
conjuncts evaluate the code at the failing input (all-zero EEPROM, i.e.
empty SSID): the `presence_gen_one` path crashes, while `test_device`
enters CONFIG with no `WiFi.begin`, and the full-variant `begin()` gets
`false` from `connect()` and enters config mode with no join. -/
theorem startup_empty_ssid_config_vs_null_deref :
    presenceSetup (fun _ => 0) (fun _ => false) = SetupOutcome.crash
    ∧ presenceSetup (fun _ => 0) (fun _ => true) = SetupOutcome.crash
    ∧ (testSetup (fun _ => 0)).portalConfigMode = true
    ∧ PAct.wifiBeginAct ∉ (testSetup (fun _ => 0)).acts
    ∧ (testSetup (fun _ => 0)).acts = [PAct.enterConfigAct]
    ∧ (loviBegin []).1.configMode = true
    ∧ (loviBegin []).2 = false := by
  refine ⟨rfl, rfl, by decide, by decide, by decide, rfl, rfl⟩

/-- C2 (amended): a `connectToWiFi` attempt in `presence_gen_one` that
observes no link-up for the whole `WIFI_TIMEOUT = 30` tick budget
(1-second cadence) exits the polling loop after exactly 30 ticks into the
failure branch, performing none of the connected actions (no
`device.begin`, no mDNS, no API server — only the failure log); contrary
to the claim, the failure does not cause CONFIG-mode entry — no
failure-to-CONFIG path exists anywhere in `connectToWiFi`. -/
theorem wifi_timeout_fails_without_config_entry
    (link : Nat → Bool)
    (hl : ∀ t, t ≤ WIFI_TIMEOUT → link t = false) :
    wifiWait link 0 WIFI_TIMEOUT = 30
    ∧ connectToWiFi link = [PAct.wifiBeginAct, PAct.printFailedAct]
    ∧ PAct.deviceBeginAct ∉ connectToWiFi link
    ∧ PAct.startMDNSAct ∉ connectToWiFi link
    ∧ PAct.startAPIServerAct ∉ connectToWiFi link
    ∧ PAct.enterConfigAct ∉ connectToWiFi link := by
  have hw : wifiWait link 0 WIFI_TIMEOUT = 30 := by
    have := wifiWait_no_link link WIFI_TIMEOUT 0 (fun u hu => hl u (by omega))
    simpa [WIFI_TIMEOUT] using this
  have hc : connectToWiFi link = [PAct.wifiBeginAct, PAct.printFailedAct] := by
    simp only [connectToWiFi, hw, hl 30 (by simp [WIFI_TIMEOUT])]
    rfl
  exact ⟨hw, hc, by simp [hc], by simp [hc], by simp [hc], by simp [hc]⟩

theorem wifi_timeout_fails_without_config_entry_witness :
    connectToWiFi (fun _ => false) = [PAct.wifiBeginAct, PAct.printFailedAct]
    ∧ PAct.enterConfigAct ∉ connectToWiFi (fun _ => false) :=
  ⟨(wifi_timeout_fails_without_config_entry (fun _ => false)
      (fun _ _ => rfl)).2.1,
   (wifi_timeout_fails_without_config_entry (fun _ => false)
      (fun _ _ => rfl)).2.2.2.2.2⟩

/-- C2 counterexample: with a link that never comes up, the timed-out
`connectToWiFi` ends in the failure log only — it performs no CONFIG-mode
entry and no connected action; the claimed FAILED → CONFIG transition does
not exist in this code. -/
theorem wifi_timeout_no_config_entry_counterexample :
    connectToWiFi (fun _ => false)
        = [PAct.wifiBeginAct, PAct.printFailedAct]
    ∧ PAct.enterConfigAct ∉ connectToWiFi (fun _ => false)
    ∧ PAct.deviceBeginAct ∉ connectToWiFi (fun _ => false) := by
  refine ⟨by decide, by decide, by decide⟩

/-- C3 (amended): every captive-portal probe path answers a GET with an
HTTP 302 redirect to the portal root URL in every state — the probe
handlers never consult `configMode`, so the redirect also happens outside
CONFIG mode (the redirect target is the AP address while the AP radio is
up, the station address otherwise). -/
theorem probe_paths_always_redirect (c : PortalCtx) (req : Request)
    (hm : req.method = Method.get)
    (hp : req.path ∈ ["/generate_204", "/generate204", "/hotspot-detect.html",
      "/ncsi.txt", "/connecttest.txt", "/redirect"]) :
    serve c req =
      { code := 302, contentType := "text/plain",
        location := some (getCaptivePortalUrl c.wifi),
        body := RBody.textPlain "" } := by
  cases req with
  | mk m p b hh =>
    simp only [Request.method] at hm
    subst hm
    simp only [Request.path, List.mem_cons, List.mem_singleton] at hp
    rcases hp with rfl | rfl | rfl | rfl | rfl | rfl | h
    · rfl
    · rfl
    · rfl
    · rfl
    · rfl
    · rfl
    · cases h

theorem probe_paths_always_redirect_witness :
    serve ctxNormalSta
      { method := Method.get, path := "/generate_204",
        body := JBody.invalid "", hasHealthArg := false } =
      { code := 302, contentType := "text/plain",
        location := some (getCaptivePortalUrl ctxNormalSta.wifi),
        body := RBody.textPlain "" } :=
  probe_paths_always_redirect ctxNormalSta _ rfl (by decide)

/-- C3 counterexample: in a NORMAL-mode state (`configMode = false`,
station radio), a GET on `/generate_204` still receives a 302 redirect —
refuting that probe paths redirect only in CONFIG mode and otherwise see
the normal 404/landing behavior. -/
theorem probe_redirect_in_normal_mode_counterexample :
    ctxNormalSta.configMode = false
    ∧ (serve ctxNormalSta
        { method := Method.get, path := "/generate_204",
          body := JBody.invalid "", hasHealthArg := false }).code = 302
    ∧ (serve ctxNormalSta
        { method := Method.get, path := "/generate_204",
          body := JBody.invalid "", hasHealthArg := false }).location
        = some "http://192.168.1.50/" := by
  refine ⟨rfl, by decide, by decide⟩

/-- C4 (amended): a `connected` event delivered in CONFIG mode stops the
DNS redirector and tears the access point down exactly once — a second
delivery of the event adds no further stop/teardown calls — but the
device exit-config-mode notification is invoked on every delivery
(`device->onExitConfigMode()` is outside the `if (configMode)` guard), so
the second delivery does fire it again. -/
theorem connected_in_config_stops_dns_ap_once (s : OState)
    (h : s.configMode = true) :
    (onWiFiConnected s).dnsStopCount = s.dnsStopCount + 1
    ∧ (onWiFiConnected s).apStopCount = s.apStopCount + 1
    ∧ (onWiFiConnected s).configMode = false
    ∧ (onWiFiConnected (onWiFiConnected s)).dnsStopCount = s.dnsStopCount + 1
    ∧ (onWiFiConnected (onWiFiConnected s)).apStopCount = s.apStopCount + 1
    ∧ (onWiFiConnected s).exitNotifyCount = s.exitNotifyCount + 1
    ∧ (onWiFiConnected (onWiFiConnected s)).exitNotifyCount
        = s.exitNotifyCount + 2 := by
  simp [onWiFiConnected, h]

theorem connected_in_config_stops_dns_ap_once_witness :
    (enterConfigMode OState.start).configMode = true
    ∧ (onWiFiConnected (enterConfigMode OState.start)).dnsStopCount
        = (enterConfigMode OState.start).dnsStopCount + 1 :=
  ⟨rfl, (connected_in_config_stops_dns_ap_once (enterConfigMode OState.start) rfl).1⟩

/-- C4 counterexample: delivering the `connected` event a second time
(CONFIG mode no longer set) fires the device exit-config-mode notification
again, contrary to the claim. -/
theorem connected_twice_refires_exit_notify_counterexample :
    (onWiFiConnected (onWiFiConnected (enterConfigMode OState.start))).exitNotifyCount
      ≠ (onWiFiConnected (enterConfigMode OState.start)).exitNotifyCount := by
  decide

/-- C5: in every reachable orchestrator state the DNS redirector runs
exactly when CONFIG mode is set — in particular it is never left running
once the mode is NORMAL — it is started whenever the access point comes up,
stopped by a successful connection, and both transitions are idempotent
(repeating them does not change the redirector state). -/
theorem dns_redirector_mode_invariant (s : OState) (h : OReachable s) :
    s.dnsRunning = s.configMode
    ∧ (s.configMode = false → s.dnsRunning = false)
    ∧ (enterConfigMode s).dnsRunning = true
    ∧ (enterConfigMode (enterConfigMode s)).dnsRunning = true
    ∧ (onWiFiConnected s).dnsRunning = false
    ∧ (onWiFiConnected (onWiFiConnected s)).dnsRunning = false := by
  have inv := dnsRunning_eq_configMode s h
  have stop1 : (onWiFiConnected s).dnsRunning = false := by
    by_cases hc : s.configMode
    · simp [onWiFiConnected, hc]
    · simp only [Bool.not_eq_true] at hc
      simp [onWiFiConnected, hc, inv]
  have stopMode : (onWiFiConnected s).configMode = false := by
    by_cases hc : s.configMode
    · simp [onWiFiConnected, hc]
    · simp only [Bool.not_eq_true] at hc
      simp [onWiFiConnected, hc]
  have stop2 : ∀ t : OState, t.configMode = false →
      (onWiFiConnected t).dnsRunning = t.dnsRunning := by
    intro t ht
    simp [onWiFiConnected, ht]
  refine ⟨inv, fun hn => by rw [inv, hn], by simp [enterConfigMode, startAccessPoint],
    by simp [enterConfigMode, startAccessPoint], stop1, ?_⟩
  rw [stop2 _ stopMode, stop1]

theorem dns_redirector_mode_invariant_witness :
    OState.start.dnsRunning = OState.start.configMode
    ∧ (onWiFiConnected OState.start).dnsRunning = false :=
  ⟨(dns_redirector_mode_invariant OState.start OReachable.start).1,
   (dns_redirector_mode_invariant OState.start OReachable.start).2.2.2.2.1⟩

/-- C6: saving credentials and loading them back round-trips for any SSID
of at most 31 bytes and passphrase of at most 63 bytes; oversized inputs
are deterministically truncated to the fixed 31/63-byte capacities, and
saving never writes outside EEPROM cells 0–95 (well inside the
`EEPROM.begin(512)` region). -/
theorem credentials_roundtrip (cm : CMState) (e : Nat → Nat) (s p : List Nat)
    (h1 : cm.ssidBuf.length = 32) (h2 : cm.pwBuf.length = 64)
    (hs : ∀ b ∈ s, b ≠ 0) (hp : ∀ b ∈ p, b ≠ 0) :
    (loadFromEEPROM (saveToEEPROM ((cm.setSSID s).setPassword p) e)).getSSID
        = s.take 31
    ∧ (loadFromEEPROM (saveToEEPROM ((cm.setSSID s).setPassword p) e)).getPassword
        = p.take 63
    ∧ (s.length ≤ 31 →
        (loadFromEEPROM (saveToEEPROM ((cm.setSSID s).setPassword p) e)).getSSID = s)
    ∧ (p.length ≤ 63 →
        (loadFromEEPROM (saveToEEPROM ((cm.setSSID s).setPassword p) e)).getPassword = p)
    ∧ (∀ a, 96 ≤ a → saveToEEPROM ((cm.setSSID s).setPassword p) e a = e a) := by
  have hcm1 : ((cm.setSSID s).setPassword p).ssidBuf.length = 32 := by
    simp [CMState.setPassword, CMState.setSSID, strncpyList_length, h1]
  have hcm2 : ((cm.setSSID s).setPassword p).pwBuf.length = 64 := by
    simp [CMState.setPassword, CMState.setSSID, strncpyList_length, h2]
  have hload := load_save ((cm.setSSID s).setPassword p) e hcm1 hcm2
  have hssid : (loadFromEEPROM (saveToEEPROM ((cm.setSSID s).setPassword p) e)).getSSID
      = s.take 31 := by
    rw [hload]
    show cStr ((cm.setSSID s).setPassword p).ssidBuf = s.take 31
    simp only [CMState.setPassword, CMState.setSSID]
    exact cStr_strncpy_set cm.ssidBuf s 31 h1 hs
  have hpw : (loadFromEEPROM (saveToEEPROM ((cm.setSSID s).setPassword p) e)).getPassword
      = p.take 63 := by
    rw [hload]
    show cStr ((cm.setSSID s).setPassword p).pwBuf = p.take 63
    simp only [CMState.setPassword, CMState.setSSID]
    exact cStr_strncpy_set cm.pwBuf p 63 h2 hp
  refine ⟨hssid, hpw, fun hls => ?_, fun hlp => ?_, fun a ha =>
    save_no_overflow _ e hcm1 hcm2 a ha⟩
  · rw [hssid, List.take_of_length_le hls]
  · rw [hpw, List.take_of_length_le hlp]

theorem credentials_roundtrip_witness :
    (loadFromEEPROM (saveToEEPROM ((CMState.init.setSSID [104, 105]).setPassword
        [112, 119]) (fun _ => 255))).getSSID = [104, 105]
    ∧ (loadFromEEPROM (saveToEEPROM ((CMState.init.setSSID [104, 105]).setPassword
        [112, 119]) (fun _ => 255))).getPassword = [112, 119] :=
  ⟨(credentials_roundtrip CMState.init (fun _ => 255) [104, 105] [112, 119]
      (by decide) (by decide) (by decide) (by decide)).2.2.1 (by decide),
   (credentials_roundtrip CMState.init (fun _ => 255) [104, 105] [112, 119]
      (by decide) (by decide) (by decide) (by decide)).2.2.2.1 (by decide)⟩

/-- C7 (amended): `POST /led` with a JSON body whose `state` member is
`true` answers 200 with `success = true` and `led = true`; a body without a
`state` member, and a missing or malformed body, answer 400.  A non-POST
request, however, never reaches the handler (the route is registered for
POST only), so its 405 branch is dead: `GET /led` falls to the catch-all
and receives the portal HTML page with status 200, and `GET /api/led`
receives the structured 404 JSON body. -/
theorem led_endpoint_behavior (c : PortalCtx) (o : JObj) (msg : String)
    (b : JBody) (hh : Bool) (hc : c.hasLed = true) :
    (jget o "state" = some (JVal.jb true) →
      serve c { method := Method.post, path := "/led", body := JBody.obj o,
                hasHealthArg := hh } =
        jsonResponse 200
          [("success", JVal.jb true), ("led", JVal.jb true),
           ("message", JVal.js "LED turned on")])
    ∧ (jget o "state" = none →
      (serve c { method := Method.post, path := "/led", body := JBody.obj o,
                 hasHealthArg := hh }).code = 400)
    ∧ (serve c { method := Method.post, path := "/led", body := JBody.invalid msg,
                 hasHealthArg := hh }).code = 400
    ∧ serve c { method := Method.get, path := "/led", body := b,
                hasHealthArg := hh } =
        { code := 200, contentType := "text/html", location := none,
          body := RBody.htmlPage }
    ∧ (serve c { method := Method.get, path := "/api/led", body := b,
                 hasHealthArg := hh }).code = 404 := by
  have hpost : serve c { method := Method.post, path := "/led", body := JBody.obj o, hasHealthArg := hh } = handleLED c { method := Method.post, path := "/led", body := JBody.obj o, hasHealthArg := hh } := rfl
  refine ⟨fun hstate => ?_, fun hstate => ?_, ?_, ?_, ?_⟩
  · rw [hpost]
    simp [handleLED, hstate, JVal.asBool, hc]
  · rw [hpost]
    simp [handleLED, hstate, jsonResponse]
  · rfl
  · rfl
  · rfl

theorem led_endpoint_behavior_witness :
    serve ctxNormalSta
      { method := Method.post, path := "/led",
        body := JBody.obj [("state", JVal.jb true)], hasHealthArg := false } =
      jsonResponse 200
        [("success", JVal.jb true), ("led", JVal.jb true),
         ("message", JVal.js "LED turned on")] :=
  (led_endpoint_behavior ctxNormalSta [("state", JVal.jb true)] "" (JBody.invalid "")
    false rfl).1 rfl

/-- C7 counterexample: a GET on `/led` receives the portal landing page
with status 200, not the claimed HTTP 405 — the handler is registered for
POST only, so its method check can never answer. -/
theorem get_led_not_405_counterexample :
    (serve ctxNormalSta
      { method := Method.get, path := "/led", body := JBody.invalid "",
        hasHealthArg := false }).code = 200
    ∧ (serve ctxNormalSta
        { method := Method.get, path := "/led", body := JBody.invalid "",
          hasHealthArg := false }).code ≠ 405
    ∧ (serve ctxNormalSta
        { method := Method.get, path := "/led", body := JBody.invalid "",
          hasHealthArg := false }).body = RBody.htmlPage := by
  refine ⟨by decide, by decide, by decide⟩

/-- C8: `POST /settings` with a malformed (or absent) JSON body answers 400
with an `error` member — the handler is a total function, it cannot crash —
and with a well-formed body but no device adapter attached it answers with
`success = false` and the message `No settings updated`. -/
theorem settings_endpoint_error_handling (c : PortalCtx) (msg : String)
    (o : JObj) (hh : Bool) (hdev : c.devicePresent = false) :
    serve c { method := Method.post, path := "/settings",
              body := JBody.invalid msg, hasHealthArg := hh } =
      jsonResponse 400 [("error", JVal.js "Invalid JSON"), ("message", JVal.js msg)]
    ∧ jget (serve c { method := Method.post, path := "/settings",
                      body := JBody.invalid msg, hasHealthArg := hh }).jsonFields "error"
        = some (JVal.js "Invalid JSON")
    ∧ (serve c { method := Method.post, path := "/settings",
                 body := JBody.obj o, hasHealthArg := hh }).code = 200
    ∧ jget (serve c { method := Method.post, path := "/settings",
                      body := JBody.obj o, hasHealthArg := hh }).jsonFields "success"
        = some (JVal.jb false)
    ∧ jget (serve c { method := Method.post, path := "/settings",
                      body := JBody.obj o, hasHealthArg := hh }).jsonFields "message"
        = some (JVal.js "No settings updated") := by
  have hobj : serve c { method := Method.post, path := "/settings",
                        body := JBody.obj o, hasHealthArg := hh } =
      jsonResponse 200
        (jset (jset o "success" (JVal.jb false)) "message"
          (JVal.js "No settings updated")) := by
    have hdisp : serve c { method := Method.post, path := "/settings",
                           body := JBody.obj o, hasHealthArg := hh } =
        handleSettings c { method := Method.post, path := "/settings",
                           body := JBody.obj o, hasHealthArg := hh } := rfl
    rw [hdisp]
    simp [handleSettings, hdev]
  refine ⟨rfl, by simp [jget], ?_, ?_, ?_⟩
  · rw [hobj]
    rfl
  · rw [hobj]
    show jget (jset (jset o "success" (JVal.jb false)) "message"
      (JVal.js "No settings updated")) "success" = some (JVal.jb false)
    rw [jget_jset_ne _ _ _ _ (by decide), jget_jset_self]
  · rw [hobj]
    exact jget_jset_self _ _ _

theorem settings_endpoint_error_handling_witness :
    serve ctxNoDevice
      { method := Method.post, path := "/settings",
        body := JBody.invalid "EmptyInput", hasHealthArg := false } =
      jsonResponse 400
        [("error", JVal.js "Invalid JSON"), ("message", JVal.js "EmptyInput")]
    ∧ jget (serve ctxNoDevice { method := Method.post, path := "/settings",
                                  body := JBody.obj [], hasHealthArg := false }).jsonFields "success"
        = some (JVal.jb false) :=
  ⟨(settings_endpoint_error_handling ctxNoDevice "EmptyInput" [] false rfl).1,
   (settings_endpoint_error_handling ctxNoDevice "EmptyInput" [] false rfl).2.2.2.1⟩

/-- C9: both lifecycle handlers send their HTTP acknowledgment (a 200 JSON
response) strictly before the disruptive action: `handleRestart` answers
before `ESP.restart()`, and `handleReset` answers before clearing the
stored configuration and before restarting. -/
theorem lifecycle_ack_before_disruption :
    HAct.sendResp 200 ∈ handleRestartTrace
    ∧ HAct.restartDevice ∈ handleRestartTrace
    ∧ handleRestartTrace.indexOf (HAct.sendResp 200)
        < handleRestartTrace.indexOf HAct.restartDevice
    ∧ HAct.sendResp 200 ∈ handleResetTrace
    ∧ HAct.resetConfigAct ∈ handleResetTrace
    ∧ HAct.restartDevice ∈ handleResetTrace
    ∧ handleResetTrace.indexOf (HAct.sendResp 200)
        < handleResetTrace.indexOf HAct.resetConfigAct
    ∧ handleResetTrace.indexOf (HAct.resetConfigAct)
        < handleResetTrace.indexOf HAct.restartDevice
    ∧ restartAck.code = 200
    ∧ resetAck.code = 200 := by
  decide

/-- C10: in the `lib/captiveportal` variant, `/save` with both `ssid` and
`password` form arguments persists the (buffer-truncated) credentials to
the EEPROM, answers 200 and restarts the device; with either argument
missing it answers 400 and leaves both the in-memory config and the EEPROM
untouched. -/
theorem save_endpoint_persists_or_rejects (cm : CMState) (e : Nat → Nat)
    (s p : List Nat)
    (h1 : cm.ssidBuf.length = 32) (h2 : cm.pwBuf.length = 64)
    (hs : ∀ b ∈ s, b ≠ 0) (hp : ∀ b ∈ p, b ≠ 0) :
    ((handleSave cm e (some s) (some p)).code = 200
      ∧ (handleSave cm e (some s) (some p)).restarted = true
      ∧ (loadFromEEPROM (handleSave cm e (some s) (some p)).eeprom).getSSID
          = s.take 31
      ∧ (loadFromEEPROM (handleSave cm e (some s) (some p)).eeprom).getPassword
          = p.take 63)
    ∧ (∀ a1 a2 : Option (List Nat), a1 = none ∨ a2 = none →
        handleSave cm e a1 a2
          = { cm := cm, eeprom := e, code := 400, restarted := false }) := by
  have hcm1 : ((cm.setSSID s).setPassword p).ssidBuf.length = 32 := by
    simp [CMState.setPassword, CMState.setSSID, strncpyList_length, h1]
  have hcm2 : ((cm.setSSID s).setPassword p).pwBuf.length = 64 := by
    simp [CMState.setPassword, CMState.setSSID, strncpyList_length, h2]
  have hload := load_save ((cm.setSSID s).setPassword p) e hcm1 hcm2
  refine ⟨⟨rfl, rfl, ?_, ?_⟩, ?_⟩
  · show (loadFromEEPROM (saveToEEPROM ((cm.setSSID s).setPassword p) e)).getSSID
      = s.take 31
    rw [hload]
    show cStr ((cm.setSSID s).setPassword p).ssidBuf = s.take 31
    simp only [CMState.setPassword, CMState.setSSID]
    exact cStr_strncpy_set cm.ssidBuf s 31 h1 hs
  · show (loadFromEEPROM (saveToEEPROM ((cm.setSSID s).setPassword p) e)).getPassword
      = p.take 63
    rw [hload]
    show cStr ((cm.setSSID s).setPassword p).pwBuf = p.take 63
    simp only [CMState.setPassword, CMState.setSSID]
    exact cStr_strncpy_set cm.pwBuf p 63 h2 hp
  · intro a1 a2 hnone
    rcases hnone with h | h
    · subst h
      rfl
    · subst h
      cases a1 with
      | none => rfl
      | some v => rfl

theorem save_endpoint_persists_or_rejects_witness :
    (handleSave CMState.init (fun _ => 0) (some [110]) (some [112])).code = 200
    ∧ (loadFromEEPROM
        (handleSave CMState.init (fun _ => 0) (some [110]) (some [112])).eeprom).getSSID
        = [110].take 31
    ∧ handleSave CMState.init (fun _ => 0) none (some [112])
        = { cm := CMState.init, eeprom := fun _ => 0, code := 400, restarted := false } :=
  ⟨(save_endpoint_persists_or_rejects CMState.init (fun _ => 0) [110] [112]
      (by decide) (by decide) (by decide) (by decide)).1.1,
   (save_endpoint_persists_or_rejects CMState.init (fun _ => 0) [110] [112]
      (by decide) (by decide) (by decide) (by decide)).1.2.2.1,
   (save_endpoint_persists_or_rejects CMState.init (fun _ => 0) [110] [112]
      (by decide) (by decide) (by decide) (by decide)).2 none (some [112])
      (Or.inl rfl)⟩

end Lovi
